import Mathlib

/-!
Verification of the Resolution & Acquisition Pipeline implemented in
`AviaxMusic/platforms/Youtube.py` (class `YouTubeAPI`).

The Python methods are shallowly embedded as Lean functions.  External
collaborators (the yt-dlp extraction backend, the VideosSearch secondary
search provider, the `is_on_off` configuration flag, the filesystem and
the direct-URL subprocess) are modelled as explicit environment records
of oracle functions; fallible Python code becomes `Except String`.
Call-count traces record how often each oracle is invoked on a run.
-/

/- ## Character-list utilities mirroring the Python string operations -/

/-- Python `s.split(sep)[0]`: the prefix of `cs` before the first occurrence
of `sep` (the whole list when `sep` does not occur). -/
def splitFirstChar (sep : Char) : List Char → List Char
  | [] => []
  | c :: rest => if c = sep then [] else c :: splitFirstChar sep rest

/-- Python `s.split(sep)`: split a character list at every occurrence of `sep`. -/
def splitOnChar (sep : Char) : List Char → List (List Char)
  | [] => [[]]
  | c :: rest =>
    if c = sep then [] :: splitOnChar sep rest
    else
      match splitOnChar sep rest with
      | [] => [[c]]
      | g :: gs => (c :: g) :: gs

/-- Substring occurrence test: does `pat` occur contiguously inside `s`?
Models `re.search` of a literal pattern. -/
def containsSub : List Char → List Char → Bool
  | [], pat => pat.isEmpty
  | c :: rest, pat => pat.isPrefixOf (c :: rest) || containsSub rest pat

/-- Python `link.split("&")[0]`, the tracking-parameter trim used throughout
`Youtube.py`. -/
def stripAmp (s : String) : String := ⟨splitFirstChar '&' s.data⟩

/-- Python `url.split("?")[0]`, the thumbnail query-string strip. -/
def stripQuery (s : String) : String := ⟨splitFirstChar '?' s.data⟩

/-- Python `stdout.decode().split("\n")[0]`: first line of the subprocess
output. -/
def firstLine (s : String) : String := ⟨splitFirstChar '\n' s.data⟩

/- ## Decimal printing and parsing (Python f-strings and `int(...)`) -/

/-- The decimal digit character for `d` (`0 ≤ d ≤ 9`). -/
def digitChar (d : Nat) : Char := Char.ofNat (48 + d)

/-- Numeric value of a decimal digit character. -/
def digitVal (c : Char) : Nat := c.toNat - 48

/-- Value of a decimal digit string, as computed by Python `int(...)` on a
string of digits. -/
def digitsVal (cs : List Char) : Nat := cs.foldl (fun a c => a * 10 + digitVal c) 0

/-- Decimal digits of `n`, most significant first, pushed onto `acc`.
Fuel-based so that it is structurally recursive (`n ≤ fuel` suffices). -/
def natReprCore : Nat → Nat → List Char → List Char
  | 0, _, acc => acc
  | fuel + 1, n, acc =>
    if n = 0 then acc else natReprCore fuel (n / 10) (digitChar (n % 10) :: acc)

/-- Decimal representation of a natural number, as printed by a Python
f-string `f"{n}"`. -/
def natRepr (n : Nat) : String := if n = 0 then "0" else ⟨natReprCore n n []⟩

/-- Python `f"{n:02d}"` for `n < 100`: zero-pad to two digits. -/
def pad2 (n : Nat) : String := if n < 10 then "0" ++ natRepr n else natRepr n

/-- The duration string computed at `Youtube.py:70`:
`f"{duration_sec // 60}:{duration_sec % 60:02d}"`. -/
def durationDisplay (n : Nat) : String := natRepr (n / 60) ++ ":" ++ pad2 (n % 60)

/-- Is `c` a decimal digit? -/
def isDigitChar (c : Char) : Bool := 48 ≤ c.toNat && c.toNat ≤ 57

/-- Modelled from the spec: `time_to_seconds` from
`AviaxMusic/utils/formatters.py` is imported by `Youtube.py` but its source is
not part of the package under review.  Per spec §4.3/§8 it parses a
colon-separated duration string positionally in base 60 (`"M:SS"` to
`M*60+SS`, `"H:MM:SS"` to `H*3600+MM*60+SS`, and a string without a colon is
treated as whole seconds). -/
def time_to_seconds (s : String) : Nat :=
  ((splitOnChar ':' s.data).map digitsVal).foldl (fun a v => a * 60 + v) 0

/-- A non-empty all-digit component of a duration string. -/
def validPart (cs : List Char) : Bool := !cs.isEmpty && cs.all isDigitChar

/-- A well-formed `"M:SS"` or `"H:MM:SS"` duration string (numeric components,
seconds and minutes-of-hour below 60). -/
def ValidDuration (s : String) : Bool :=
  match splitOnChar ':' s.data with
  | [m, ss] => validPart m && validPart ss && decide (digitsVal ss < 60)
  | [h, mm, ss] =>
      validPart h && validPart mm && validPart ss
        && decide (digitsVal mm < 60) && decide (digitsVal ss < 60)
  | _ => false

/-- Helper for stating what `natReprCore` computes: append the decimal digits
of `n` to the accumulator value `a`. -/
def pushDigits (a n : Nat) : Nat :=
  if h : n = 0 then a else pushDigits a (n / 10) * 10 + n % 10
termination_by n
decreasing_by exact Nat.div_lt_self (Nat.pos_of_ne_zero h) (by norm_num)

/- ## Data model of `YouTubeAPI` and its collaborators -/

/-- `self.base` at `Youtube.py:17`. -/
def watchBase : String := "https://www.youtube.com/watch?v="

/-- `self.listbase` at `Youtube.py:20`. -/
def listBase : String := "https://youtube.com/playlist?list="

/-- `re.search(self.regex, link)` where `self.regex` is the alternation of the
two literal host patterns `youtube\.com` and `youtu\.be` (`Youtube.py:18`,
dots escaped, so each alternative is a literal substring match). -/
def regexSearchYt (link : String) : Bool :=
  containsSub link.data "youtube.com".data || containsSub link.data "youtu.be".data

/-- `YouTubeAPI.exists` (`Youtube.py:23-26`): prepend the watch base when a
video id is given, then search for the host pattern. -/
def existsImpl (link : String) (videoid : Bool) : Bool :=
  regexSearchYt (if videoid then watchBase ++ link else link)

/- ### Reference resolver (`YouTubeAPI.url`, `Youtube.py:28-50`) -/

/-- The pyrogram entity kinds the resolver distinguishes. -/
inductive EntityType where
  | url
  | text_link
  | other
deriving DecidableEq

/-- A pyrogram `MessageEntity`: a kind, a byte span, and (for rich links) the
embedded URL. -/
structure MessageEntity where
  type : EntityType
  offset : Nat
  length : Nat
  url : String

/-- The fields of a message that the resolver's scan loop reads. -/
structure MsgView where
  text : Option String
  caption : Option String
  entities : List MessageEntity
  caption_entities : List MessageEntity

/-- A pyrogram `Message` as consumed by `url`: scanned fields plus an optional
replied-to message (which may itself have a reply, and so on). -/
inductive Msg where
  | mk (text caption : Option String) (entities caption_entities : List MessageEntity)
      (reply_to_message : Option Msg)

def Msg.reply_to_message : Msg → Option Msg
  | .mk _ _ _ _ r => r

def Msg.view : Msg → MsgView
  | .mk t c es ces _ => ⟨t, c, es, ces⟩

/-- Drop the reply of a message (used to state that only one reply level is
ever inspected). -/
def Msg.dropReply : Msg → Msg
  | .mk t c es ces _ => .mk t c es ces none

/-- Truncate the reply chain after the first level. -/
def Msg.truncateReplies : Msg → Msg
  | .mk t c es ces r => .mk t c es ces (r.map Msg.dropReply)

/-- First entity of plain-URL kind, yielding its `(offset, length)` span
(the inner `for`/`break` at `Youtube.py:39-43`). -/
def findUrlSpan : List MessageEntity → Option (Nat × Nat)
  | [] => none
  | e :: rest => if e.type = .url then some (e.offset, e.length) else findUrlSpan rest

/-- First entity of rich-link kind, yielding its embedded URL
(the inner `for`/`return` at `Youtube.py:45-47`). -/
def findTextLinkUrl : List MessageEntity → Option String
  | [] => none
  | e :: rest => if e.type = .text_link then some e.url else findTextLinkUrl rest

/-- Python truthiness of the `offset` variable (`None` and `0` are falsy). -/
def pyTruthy : Option Nat → Bool
  | none => false
  | some n => n != 0

/-- Python `message.text or message.caption` (`None` and `""` are falsy). -/
def pyOrStr : Option String → Option String → Option String
  | some s, b => if s = "" then b else some s
  | none, b => b

/-- Python `t[off : off + len]` for non-negative indices. -/
def pySlice (t : String) (off len : Nat) : String := ⟨(t.data.drop off).take len⟩

/-- The loop state of `url`: the `text`, `offset` and `length` variables
(`Youtube.py:32-34`; `text` starts as `""`, the others as `None`). -/
structure ScanState where
  text : Option String
  offset : Option Nat
  length : Option Nat

/-- Outcome of the scan loop: either an early `return entity.url`, or the
loop finished with a final state. -/
inductive ScanOut where
  | ret (u : String)
  | done (s : ScanState)

/-- The `for message in messages` loop of `url` (`Youtube.py:35-47`):
break once `offset` is truthy; a message with (truthy) `entities` is scanned
for a plain-URL entity, otherwise its `caption_entities` are scanned for a
rich link whose URL is returned immediately. -/
def scanMsgs : List MsgView → ScanState → ScanOut
  | [], s => .done s
  | m :: rest, s =>
    if pyTruthy s.offset then .done s
    else
      match m.entities with
      | [] =>
        match findTextLinkUrl m.caption_entities with
        | some u => .ret u
        | none => scanMsgs rest s
      | e0 :: es =>
        match findUrlSpan (e0 :: es) with
        | some ol => scanMsgs rest ⟨pyOrStr m.text m.caption, some ol.1, some ol.2⟩
        | none => scanMsgs rest s

/-- `YouTubeAPI.url` (`Youtube.py:28-50`).  The messages scanned are the
incoming message and, when present, its replied-to message (one level).
`.error` models the `TypeError` raised when the found span is sliced out of a
message whose `text` and `caption` are both `None`. -/
def urlImpl (m1 : Msg) : Except String (Option String) :=
  match scanMsgs
      ([m1.view] ++ (match m1.reply_to_message with
        | some r => [r.view]
        | none => [])) ⟨some "", none, none⟩ with
  | .ret u => .ok (some u)
  | .done s =>
    match s.offset with
    | none => .ok none
    | some o =>
      match s.text with
      | none => .error "TypeError"
      | some t => .ok (some (pySlice t o (s.length.getD 0)))

/- ### Metadata resolver (`YouTubeAPI.details`, `Youtube.py:52-95`) -/

/-- The yt-dlp option dictionary built at `Youtube.py:59-63`. -/
structure DetailsOpts where
  quiet : Bool
  no_warnings : Bool
  extract_flat : Bool

def detailsOpts : DetailsOpts := ⟨true, true, true⟩

/-- The metadata object returned by `ydl.extract_info(link, download=False)`:
an optional `title` and `duration` (absent keys fall back to defaults) and an
optional `id` (an absent `id` makes the subscript raise `KeyError`). -/
structure YtInfo where
  title : Option String
  duration : Option Nat
  id : Option String

/-- One result of the `VideosSearch` secondary provider: title, an `"M:SS"`
duration string, thumbnail URLs, and the video id. -/
structure SearchItem where
  title : String
  duration : String
  thumbnails : List String
  id : String

/-- The two network collaborators of `details`: the primary yt-dlp extraction
backend and the `VideosSearch` secondary search provider.  `.error` models a
raised exception. -/
structure DetailsEnv where
  primary : String → DetailsOpts → Except String YtInfo
  search : String → Except String (List SearchItem)

/-- The tuple `(title, duration_min, duration_sec, thumbnail, vidid)` returned
by `details`. -/
structure Details where
  title : String
  duration_min : String
  duration_sec : Nat
  thumbnail : String
  vidid : String

/-- Oracle-invocation counts of one `details` run.  `pacerCalls` counts
acquisitions of a request pacer / rate-limiter slot; `Youtube.py` contains no
pacer, so no code path ever increments it. -/
structure DetailsTrace where
  pacerCalls : Nat
  primaryCalls : Nat
  searchCalls : Nat

/-- The thumbnail f-string at `Youtube.py:71`. -/
def thumbUrl (vid : String) : String :=
  "https://img.youtube.com/vi/" ++ vid ++ "/maxresdefault.jpg"

/-- The `VideosSearch` fallback block (`Youtube.py:88-94`, textually duplicated
at `76-82`): take the first result (raising `IndexError` on an empty result
list), parse its duration, and strip the first thumbnail's query string. -/
def searchFallback (env : DetailsEnv) (link : String) : Except String Details :=
  match env.search link with
  | .error e => .error e
  | .ok [] => .error "IndexError"
  | .ok (r :: _) =>
    match r.thumbnails with
    | [] => .error "IndexError"
    | t :: _ =>
      .ok ⟨r.title, r.duration, time_to_seconds r.duration, stripQuery t, r.id⟩

/-- The `try` block of `details` (`Youtube.py:65-84`): one primary extraction;
missing `id` raises `KeyError`; if `all([title, duration_sec, thumbnail])` is
falsy (empty title or zero duration), the in-try `VideosSearch` fallback runs
instead. -/
def detailsTry (env : DetailsEnv) (link : String) : Except String Details × DetailsTrace :=
  match env.primary link detailsOpts with
  | .error e => (.error e, ⟨0, 1, 0⟩)
  | .ok info =>
    match info.id with
    | none => (.error "KeyError", ⟨0, 1, 0⟩)
    | some vid =>
      if info.title.getD "No Title" ≠ "" ∧ info.duration.getD 0 ≠ 0 ∧ thumbUrl vid ≠ "" then
        (.ok ⟨info.title.getD "No Title", durationDisplay (info.duration.getD 0),
          info.duration.getD 0, thumbUrl vid, vid⟩, ⟨0, 1, 0⟩)
      else
        (searchFallback env link, ⟨0, 1, 1⟩)

/-- Link normalization shared by `details` and friends: prepend the watch base
for a bare video id, then trim at the first `&`. -/
def normLink (link : String) (videoid : Bool) : String :=
  stripAmp (if videoid then watchBase ++ link else link)

/-- `YouTubeAPI.details` (`Youtube.py:52-95`): run the `try` block; any
exception it raises is caught by the `except` branch, which runs the
`VideosSearch` fallback once more — and whose own failure propagates to the
caller. -/
def details (env : DetailsEnv) (link : String) (videoid : Bool) :
    Except String Details × DetailsTrace :=
  match detailsTry env (normLink link videoid) with
  | (.ok d, t) => (.ok d, t)
  | (.error _, t) =>
    (searchFallback env (normLink link videoid),
      ⟨t.pacerCalls, t.primaryCalls, t.searchCalls + 1⟩)

/- ### Acquisition orchestrator (`YouTubeAPI.download`, `Youtube.py:222-334`) -/

/-- A yt-dlp postprocessor directive. -/
structure Postprocessor where
  key : String
  preferredcodec : String
  preferredquality : String

/-- The option dictionaries built by the four download closures. -/
structure DlOpts where
  format : String
  outtmpl : String
  quiet : Bool
  postprocessors : List Postprocessor
  merge_output_format : Option String
  prefer_ffmpeg : Bool
  no_warnings : Bool

/-- Options of `audio_dl` (`Youtube.py:239-250`). -/
def audio_dl_opts : DlOpts :=
  { format := "bestaudio/best"
    outtmpl := "downloads/%(id)s.%(ext)s"
    quiet := true
    postprocessors := [⟨"FFmpegExtractAudio", "mp3", "320"⟩]
    merge_output_format := none
    prefer_ffmpeg := true
    no_warnings := true }

/-- Options of `video_dl` (`Youtube.py:261-268`). -/
def video_dl_opts : DlOpts :=
  { format := "bestvideo[height<=720][ext=mp4]+bestaudio[ext=m4a]/best[height<=720]"
    outtmpl := "downloads/%(id)s.%(ext)s"
    quiet := true
    postprocessors := []
    merge_output_format := some "mp4"
    prefer_ffmpeg := true
    no_warnings := true }

/-- Options of `song_video_dl` (`Youtube.py:274-281`). -/
def song_video_opts (format_id title : String) : DlOpts :=
  { format := format_id ++ "+bestaudio"
    outtmpl := "downloads/" ++ title ++ ".mp4"
    quiet := true
    postprocessors := []
    merge_output_format := some "mp4"
    prefer_ffmpeg := true
    no_warnings := true }

/-- Options of `song_audio_dl` (`Youtube.py:287-298`). -/
def song_audio_opts (format_id title : String) : DlOpts :=
  { format := format_id
    outtmpl := "downloads/" ++ title ++ ".%(ext)s"
    quiet := true
    postprocessors := [⟨"FFmpegExtractAudio", "mp3", "192"⟩]
    merge_output_format := none
    prefer_ffmpeg := true
    no_warnings := true }

/-- The external collaborators of `download`: the persistent `is_on_off`
configuration flag, the yt-dlp extraction-with-download backend (returning the
prepared filename), and the `yt-dlp -g` direct-URL subprocess (returning its
decoded stdout).  `.error` models a raised exception. -/
structure DlEnv where
  is_on_off : Nat → Bool
  extract : String → DlOpts → Except String String
  subproc : List String → Except String String

/-- Argument list of the direct-URL subprocess (`Youtube.py:314-322`). -/
def subprocArgs (link : String) : List String :=
  ["yt-dlp", "-g", "-f", "best[height<=720]", link]

/-- The flags and per-song parameters of `download`
(`Youtube.py:226-231`, each `Union[bool, str] = None`, used for truthiness). -/
structure DlArgs where
  video : Bool
  songaudio : Bool
  songvideo : Bool
  videoid : Bool
  format_id : String
  title : String

/-- What `download` returns: the song branches return a bare path, the other
branches a `(downloaded_file, direct)` pair. -/
inductive DlReturn where
  | pathOnly (path : String)
  | pathDirect (path : String) (direct : Bool)

/-- Oracle-invocation counts of one `download` run.  As in `DetailsTrace`,
`pacerCalls` stays at zero because the source contains no pacer. -/
structure DlTrace where
  pacerCalls : Nat
  subprocCalls : Nat
  executorCalls : Nat

/-- `os.path.splitext(path)[0]`: everything before the last dot (when a dot
occurs). -/
def stemOf (s : String) : String :=
  if '.' ∈ s.data then ⟨((s.data.reverse.dropWhile (fun c => c ≠ '.')).drop 1).reverse⟩
  else s

/-- The `audio_dl` closure (`Youtube.py:238-258`): extract with download, then
rename the result in place to the `.mp3` extension when needed. -/
def audio_dl (env : DlEnv) (link : String) : Except String String :=
  match env.extract link audio_dl_opts with
  | .error e => .error e
  | .ok path =>
    if ".mp3".data.isSuffixOf path.data then .ok path
    else .ok (stemOf path ++ ".mp3")

/-- The `video_dl` closure (`Youtube.py:260-271`). -/
def video_dl (env : DlEnv) (link : String) : Except String String :=
  env.extract link video_dl_opts

/-- The `song_video_dl` closure (`Youtube.py:273-284`): the returned path is
the fixed template, not the backend's answer. -/
def song_video_dl (env : DlEnv) (link format_id title : String) : Except String String :=
  match env.extract link (song_video_opts format_id title) with
  | .error e => .error e
  | .ok _ => .ok ("downloads/" ++ title ++ ".mp4")

/-- The `song_audio_dl` closure (`Youtube.py:286-301`). -/
def song_audio_dl (env : DlEnv) (link format_id title : String) : Except String String :=
  match env.extract link (song_audio_opts format_id title) with
  | .error e => .error e
  | .ok _ => .ok ("downloads/" ++ title ++ ".mp3")

/-- Link prefixing at the top of `download` (`Youtube.py:233-234`). -/
def dlLink (videoid : Bool) (link : String) : String :=
  if videoid then watchBase ++ link else link

/-- `YouTubeAPI.download` (`Youtube.py:222-334`).  Branch order: `songvideo`,
`songaudio`, `video`, else audio.  In the video branch, `is_on_off(1)` truthy
selects a local `video_dl` with `direct = True`; otherwise the `yt-dlp -g`
subprocess runs, a non-empty stdout yields its first line with
`direct = False`, and an empty stdout falls back to `video_dl` with
`direct = True`.  There is no `try` anywhere in the method, so every raised
error propagates. -/
def download (env : DlEnv) (args : DlArgs) (link : String) :
    Except String DlReturn × DlTrace :=
  if args.songvideo then
    ((song_video_dl env (dlLink args.videoid link) args.format_id args.title).map
      DlReturn.pathOnly, ⟨0, 0, 1⟩)
  else if args.songaudio then
    ((song_audio_dl env (dlLink args.videoid link) args.format_id args.title).map
      DlReturn.pathOnly, ⟨0, 0, 1⟩)
  else if args.video then
    if env.is_on_off 1 then
      ((video_dl env (dlLink args.videoid link)).map
        (fun p => DlReturn.pathDirect p true), ⟨0, 0, 1⟩)
    else
      match env.subproc (subprocArgs (dlLink args.videoid link)) with
      | .error e => (.error e, ⟨0, 1, 0⟩)
      | .ok out =>
        if out ≠ "" then
          (.ok (.pathDirect (firstLine out) false), ⟨0, 1, 0⟩)
        else
          ((video_dl env (dlLink args.videoid link)).map
            (fun p => DlReturn.pathDirect p true), ⟨0, 1, 1⟩)
  else
    ((audio_dl env (dlLink args.videoid link)).map
      (fun p => DlReturn.pathDirect p true), ⟨0, 0, 1⟩)

/- ### Playlist expander (`YouTubeAPI.playlist`, `Youtube.py:131-151`) -/

/-- The yt-dlp option dictionary built at `Youtube.py:137-141`. -/
structure PlaylistOpts where
  extract_flat : Bool
  playlistend : Nat
  quiet : Bool

def playlistOpts (limit : Nat) : PlaylistOpts := ⟨true, limit, true⟩

/-- A flat playlist entry (only its `id` is read). -/
structure PlEntry where
  id : String

/-- The playlist metadata object: `entries` is present or absent. -/
structure PlaylistInfo where
  entries : Option (List PlEntry)

/-- Playlist link normalization (`Youtube.py:132-135`). -/
def plLink (link : String) (videoid : Bool) : String :=
  stripAmp (if videoid then listBase ++ link else link)

/-- `YouTubeAPI.playlist` (`Youtube.py:131-151`): flat enumeration bounded by
the `playlistend` option; `[entry['id'] for entry in info['entries']]` when
`entries` is present, `[]` otherwise, and `[]` on any raised error. -/
def playlistImpl (backend : String → PlaylistOpts → Except String PlaylistInfo)
    (link : String) (limit : Nat) (user_id : Nat) (videoid : Bool) : List String :=
  match backend (plLink link videoid) (playlistOpts limit) with
  | .error _ => []
  | .ok info =>
    match info.entries with
    | some es => es.map PlEntry.id
    | none => []

/- ### Audio-only format selection (for the format-selector claims) -/

/-- The `/`-separated alternatives of a yt-dlp format selector string.
Modelled from the spec's "format selector string" collaborator contract
(§6, glossary): alternatives are tried left to right. -/
def splitAlternatives (f : String) : List String :=
  (splitOnChar '/' f.data).map (fun cs => ⟨cs⟩)

/-- Modelled from the spec: a format-selector alternative requests only audio
streams when it is a `bestaudio` selector (possibly filtered); the plain
`best` selector picks the best combined video+audio stream. -/
def isAudioOnlyAlt (a : String) : Bool := "bestaudio".data.isPrefixOf a.data

/-- The claim C7 reads on the audio format string: every alternative of the
selector requests only audio streams. -/
def SelectsOnlyAudio (f : String) : Prop :=
  ∀ a ∈ splitAlternatives f, isAudioOnlyAlt a = true

/- ### Concrete environments used by counterexamples and witnesses -/

def c1_env : DetailsEnv :=
  ⟨fun _ _ => .error "DownloadError", fun _ => .error "HTTPError"⟩

def c4_env : DetailsEnv :=
  ⟨fun _ _ => .ok ⟨some "Test Song", some 212, some "dQw4w9WgXcQ"⟩,
    fun _ => .error "unused"⟩

def c5_env : DetailsEnv :=
  ⟨fun _ _ => .error "DownloadError",
    fun _ => .ok [⟨"Test Song", "3:32", ["https://i.ytimg.com/t.jpg?sqp=x"], "dQw4w9WgXcQ"⟩]⟩

def videoArgs : DlArgs := ⟨true, false, false, false, "", ""⟩

def audioArgs : DlArgs := ⟨false, false, false, false, "", ""⟩

def c2_env : DlEnv :=
  ⟨fun _ => false,
    fun _ _ => .ok "downloads/dQw4w9WgXcQ.mp4",
    fun _ => .ok "https://cdn.example/v.mp4\nhttps://cdn.example/a.m4a"⟩

def c2_env_on : DlEnv :=
  ⟨fun _ => true,
    fun _ _ => .ok "downloads/dQw4w9WgXcQ.mp4",
    fun _ => .error "unused"⟩

def c2_env_empty : DlEnv :=
  ⟨fun _ => false,
    fun _ _ => .ok "downloads/dQw4w9WgXcQ.mp4",
    fun _ => .ok ""⟩

def c3_env : DlEnv :=
  ⟨fun _ => true, fun _ _ => .error "DownloadError", fun _ => .ok ""⟩

def c3_env_sub : DlEnv :=
  ⟨fun _ => false, fun _ _ => .error "DownloadError", fun _ => .error "OSError"⟩

def c6_reply : Msg :=
  .mk (some "check this out") none
    [⟨.text_link, 0, 14, "https://youtu.be/dQw4w9WgXcQ"⟩] [] none

def c6_msg : Msg := .mk (some "play it") none [] [] (some c6_reply)

def c6_caption_reply : Msg :=
  .mk none (some "check this out")
    [] [⟨.text_link, 0, 14, "https://youtu.be/dQw4w9WgXcQ"⟩] none

def c6_caption_msg : Msg := .mk (some "play it") none [] [] (some c6_caption_reply)

/- ## Lemmas: decimal printing round-trips through parsing -/

theorem pushDigits_zero_left (n : Nat) : pushDigits 0 n = n := by
  induction n using Nat.strong_induction_on with
  | _ n ih =>
    unfold pushDigits
    split
    · omega
    · rename_i h
      rw [ih (n / 10) (Nat.div_lt_self (Nat.pos_of_ne_zero h) (by norm_num))]
      omega

theorem digitChar_spec (d : Nat) (h : d < 10) :
    digitVal (digitChar d) = d ∧ isDigitChar (digitChar d) = true ∧ digitChar d ≠ ':' := by
  interval_cases d <;> exact ⟨rfl, rfl, by decide⟩

theorem foldl_natReprCore (fuel : Nat) :
    ∀ n acc a, n ≤ fuel →
      (natReprCore fuel n acc).foldl (fun x c => x * 10 + digitVal c) a
        = acc.foldl (fun x c => x * 10 + digitVal c) (pushDigits a n) := by
  induction fuel with
  | zero =>
    intro n acc a hn
    have : n = 0 := Nat.le_zero.mp hn
    subst this
    simp [natReprCore, pushDigits]
  | succ fuel ih =>
    intro n acc a hn
    by_cases h0 : n = 0
    · subst h0; simp [natReprCore, pushDigits]
    · have hdiv : n / 10 ≤ fuel := by
        have := Nat.div_lt_self (Nat.pos_of_ne_zero h0) (show 1 < 10 by norm_num)
        omega
      have hd := digitChar_spec (n % 10) (Nat.mod_lt _ (by norm_num))
      simp only [natReprCore, if_neg h0]
      rw [ih (n / 10) (digitChar (n % 10) :: acc) a hdiv]
      simp only [List.foldl_cons, hd.1]
      congr 1
      conv_rhs => rw [pushDigits, dif_neg h0]

theorem digitsVal_natRepr (n : Nat) : digitsVal (natRepr n).data = n := by
  by_cases h0 : n = 0
  · subst h0; rfl
  · have : (natRepr n).data = natReprCore n n [] := by
      simp [natRepr, if_neg h0]
    rw [digitsVal, this, foldl_natReprCore n n [] 0 le_rfl]
    simp [List.foldl_nil, pushDigits_zero_left]

theorem data_append_eq (a b : String) : (a ++ b).data = a.data ++ b.data := by
  cases a; cases b; rfl

theorem natReprCore_all (P : Char → Prop) (hP : ∀ d, d < 10 → P (digitChar d))
    (fuel : Nat) :
    ∀ n acc, (∀ c ∈ acc, P c) → ∀ c ∈ natReprCore fuel n acc, P c := by
  induction fuel with
  | zero => intro n acc hacc; simpa [natReprCore] using hacc
  | succ fuel ih =>
    intro n acc hacc c hc
    by_cases h0 : n = 0
    · simp only [natReprCore, if_pos h0] at hc; exact hacc c hc
    · simp only [natReprCore, if_neg h0] at hc
      refine ih (n / 10) (digitChar (n % 10) :: acc) ?_ c hc
      intro x hx
      rcases List.mem_cons.mp hx with h | h
      · subst h; exact hP _ (Nat.mod_lt _ (by norm_num))
      · exact hacc x h

theorem natRepr_all_digits (n : Nat) :
    ∀ c ∈ (natRepr n).data, isDigitChar c = true ∧ c ≠ ':' := by
  by_cases h0 : n = 0
  · subst h0; intro c hc
    simp only [natRepr, if_pos rfl] at hc
    have : c = '0' := by simpa using hc
    subst this; exact ⟨rfl, by decide⟩
  · have : (natRepr n).data = natReprCore n n [] := by simp [natRepr, if_neg h0]
    rw [this]
    exact natReprCore_all _ (fun d hd => ⟨(digitChar_spec d hd).2.1, (digitChar_spec d hd).2.2⟩)
      n n [] (by simp)

theorem pad2_all_digits (n : Nat) :
    ∀ c ∈ (pad2 n).data, isDigitChar c = true ∧ c ≠ ':' := by
  intro c hc
  unfold pad2 at hc
  split at hc
  · rw [data_append_eq] at hc
    rcases List.mem_append.mp hc with h | h
    · have : c = '0' := by simpa using h
      subst this; exact ⟨rfl, by decide⟩
    · exact natRepr_all_digits n c h
  · exact natRepr_all_digits n c hc

theorem splitOnChar_no_sep (sep : Char) (cs : List Char) (h : sep ∉ cs) :
    splitOnChar sep cs = [cs] := by
  induction cs with
  | nil => rfl
  | cons c rest ih =>
    have hc : ¬c = sep := fun hcs => h (hcs ▸ List.mem_cons_self c rest)
    have hr : sep ∉ rest := fun hs => h (List.mem_cons_of_mem _ hs)
    simp only [splitOnChar, if_neg hc, ih hr]

theorem splitOnChar_append (sep : Char) (a b : List Char) (h : sep ∉ a) :
    splitOnChar sep (a ++ sep :: b) = a :: splitOnChar sep b := by
  induction a with
  | nil => simp [splitOnChar]
  | cons c rest ih =>
    have hc : ¬c = sep := fun hcs => h (hcs ▸ List.mem_cons_self c rest)
    have hr : sep ∉ rest := fun hs => h (List.mem_cons_of_mem _ hs)
    simp only [List.cons_append, splitOnChar, if_neg hc]
    rw [List.append_eq, ih hr]

theorem durationDisplay_data (n : Nat) :
    (durationDisplay n).data = (natRepr (n / 60)).data ++ ':' :: (pad2 (n % 60)).data := by
  unfold durationDisplay
  rw [data_append_eq, data_append_eq, List.append_assoc]
  rfl

theorem splitOnChar_durationDisplay (n : Nat) :
    splitOnChar ':' (durationDisplay n).data
      = [(natRepr (n / 60)).data, (pad2 (n % 60)).data] := by
  rw [durationDisplay_data,
    splitOnChar_append ':' _ _ (fun hm => ((natRepr_all_digits (n / 60) ':' hm).2 rfl)),
    splitOnChar_no_sep ':' _ (fun hm => ((pad2_all_digits (n % 60) ':' hm).2 rfl))]

theorem digitsVal_pad2 (n : Nat) : digitsVal (pad2 n).data = n := by
  unfold pad2
  split
  · rw [data_append_eq]
    show digitsVal ('0' :: (natRepr n).data) = n
    have : digitsVal ('0' :: (natRepr n).data)
        = (natRepr n).data.foldl (fun a c => a * 10 + digitVal c) 0 := by
      simp [digitsVal, List.foldl_cons, digitVal]
    rw [this]
    exact digitsVal_natRepr n
  · exact digitsVal_natRepr n

/-- Parsing the displayed duration string recovers the number of seconds:
the composition `time_to_seconds ∘ durationDisplay` is the identity. -/
theorem time_to_seconds_durationDisplay (n : Nat) :
    time_to_seconds (durationDisplay n) = n := by
  unfold time_to_seconds
  rw [splitOnChar_durationDisplay]
  simp only [List.map_cons, List.map_nil, List.foldl_cons, List.foldl_nil]
  rw [digitsVal_natRepr, digitsVal_pad2]
  omega

theorem pad2_length (n : Nat) (h : n < 60) : (pad2 n).data.length = 2 := by
  have : ∀ k, k < 60 → (pad2 k).data.length = 2 := by decide
  exact this n h

/-- Claim C8: for every non-negative number of seconds, `durationDisplay` produces a
string of the form `"M:SS"` — a digit-only minutes field (which may exceed 59)
worth `n / 60`, a single colon, and a two-digit seconds field worth `n % 60` —
and re-parsing a displayed duration recovers the seconds, so that parsing a
valid `"M:SS"`/`"H:MM:SS"` string and reformatting is idempotent after the
first normalization. -/
theorem duration_display_form_and_idempotent :
    (∀ n : Nat,
      time_to_seconds (durationDisplay n) = n
        ∧ ∃ mcs scs, (durationDisplay n).data = mcs ++ ':' :: scs
            ∧ (∀ c ∈ mcs, isDigitChar c = true) ∧ ':' ∉ mcs
            ∧ scs.length = 2 ∧ (∀ c ∈ scs, isDigitChar c = true)
            ∧ digitsVal mcs = n / 60 ∧ digitsVal scs = n % 60)
    ∧ (∀ s : String, ValidDuration s = true →
        durationDisplay (time_to_seconds (durationDisplay (time_to_seconds s)))
          = durationDisplay (time_to_seconds s)) := by
  constructor
  · intro n
    refine ⟨time_to_seconds_durationDisplay n,
      (natRepr (n / 60)).data, (pad2 (n % 60)).data, durationDisplay_data n,
      fun c hc => (natRepr_all_digits _ c hc).1,
      fun hm => (natRepr_all_digits _ ':' hm).2 rfl,
      pad2_length _ (Nat.mod_lt _ (by norm_num)),
      fun c hc => (pad2_all_digits _ c hc).1,
      digitsVal_natRepr _, digitsVal_pad2 _⟩
  · intro s _
    rw [time_to_seconds_durationDisplay]

theorem duration_display_witness :
    ValidDuration "3:32" = true ∧
      durationDisplay (time_to_seconds (durationDisplay (time_to_seconds "3:32")))
        = durationDisplay (time_to_seconds "3:32") :=
  ⟨by decide, duration_display_form_and_idempotent.2 "3:32" (by decide)⟩

/- ## Helper lemmas about the embedded pipeline -/

theorem detailsTry_trace (env : DetailsEnv) (l : String) :
    (detailsTry env l).2.pacerCalls = 0 ∧ (detailsTry env l).2.primaryCalls = 1 := by
  unfold detailsTry
  cases hp : env.primary l detailsOpts with
  | error e => exact ⟨rfl, rfl⟩
  | ok info =>
    cases hid : info.id with
    | none => simp [hid]
    | some vid =>
      simp only [hid]
      split <;> exact ⟨rfl, rfl⟩

theorem details_trace (env : DetailsEnv) (link : String) (videoid : Bool) :
    (details env link videoid).2.pacerCalls = 0
      ∧ (details env link videoid).2.primaryCalls = 1 := by
  have h := detailsTry_trace env (normLink link videoid)
  unfold details
  cases hdt : detailsTry env (normLink link videoid) with
  | mk res t =>
    rw [hdt] at h
    cases res with
    | error e => simpa using h
    | ok d => simpa using h

theorem download_pacer (env : DlEnv) (args : DlArgs) (link : String) :
    (download env args link).2.pacerCalls = 0 := by
  unfold download
  repeat' split
  all_goals rfl

theorem isPrefixOf_append (p l b : List Char) (h : p.isPrefixOf l = true) :
    p.isPrefixOf (l ++ b) = true := by
  induction p generalizing l with
  | nil => simp [List.isPrefixOf]
  | cons x xs ih =>
    cases l with
    | nil => simp [List.isPrefixOf] at h
    | cons y ys =>
      simp only [List.isPrefixOf, Bool.and_eq_true] at h
      simp only [List.cons_append, List.isPrefixOf, Bool.and_eq_true]
      exact ⟨h.1, ih ys h.2⟩

theorem containsSub_nil_pat (b : List Char) : containsSub b [] = true := by
  cases b with
  | nil => rfl
  | cons c rest => simp [containsSub, List.isPrefixOf]

theorem containsSub_append (a b pat : List Char) (h : containsSub a pat = true) :
    containsSub (a ++ b) pat = true := by
  induction a with
  | nil =>
    have hpat : pat = [] := by
      cases pat with
      | nil => rfl
      | cons p ps => simp [containsSub, List.isEmpty] at h
    subst hpat
    exact containsSub_nil_pat b
  | cons c rest ih =>
    simp only [containsSub, Bool.or_eq_true] at h
    simp only [List.cons_append, containsSub, Bool.or_eq_true]
    rcases h with h | h
    · left
      have := isPrefixOf_append pat (c :: rest) b h
      simpa using this
    · right
      exact ih h

/- ## Claim theorems -/

/-- Claim C1, counterexample: an environment where the primary backend and the
secondary search provider both raise.  `details` then propagates the
fallback's exception to its caller instead of returning the sentinel
`("Unknown Title", _, 0, _, _)` metadata — no sentinel exists in the code. -/
theorem c1_counterexample :
    (details c1_env "https://youtu.be/dQw4w9WgXcQ" false).1
      = Except.error "HTTPError" := rfl

/-- Claim C1, amended: when the primary extraction raises, `details` invokes
the secondary search fallback; when that fallback also raises, the fallback's
exception propagates to the caller (no sentinel metadata is returned). -/
theorem c1_details_raises_when_both_fail (env : DetailsEnv) (link : String)
    (videoid : Bool) (e1 e2 : String)
    (h1 : env.primary (normLink link videoid) detailsOpts = Except.error e1)
    (h2 : env.search (normLink link videoid) = Except.error e2) :
    (details env link videoid).1 = Except.error e2 := by
  simp [details, detailsTry, searchFallback, h1, h2]

/-- Claim C1, witness: the amended theorem applied to a concrete failing
environment and reference. -/
theorem c1_witness :
    (details c1_env "https://youtu.be/abc&t=10s" false).1
      = Except.error "HTTPError" :=
  c1_details_raises_when_both_fail c1_env "https://youtu.be/abc&t=10s" false
    "DownloadError" "HTTPError" rfl rfl

/-- Claim C2, counterexample: with the `is_on_off(1)` flag false, `download`
in video mode does invoke the subprocess, and a non-empty first stdout line is
returned with `direct = False` (payload `(location, direct=false)`, trace
`(pacer, subproc, executor) = (0, 1, 0)`) — the claim's flag polarity and
`isDirect` values are both the opposite of the code's. -/
theorem c2_counterexample :
    download c2_env videoArgs "https://youtu.be/dQw4w9WgXcQ"
      = (Except.ok (DlReturn.pathDirect "https://cdn.example/v.mp4" false),
          ⟨0, 1, 0⟩) := rfl

/-- Claim C2, amended: when `is_on_off(1)` is true, video-mode `download`
performs a local download reported with `direct = true` and never invokes the
subprocess; when the flag is false it invokes the subprocess, a non-empty
first line of stdout is returned as the location with `direct = false` and no
local download, and empty subprocess output falls back to a full local
download reported with `direct = true`. -/
theorem c2_video_mode_behaviour :
    ∀ (env : DlEnv) (link p u : String),
      (env.is_on_off 1 = true → env.extract link video_dl_opts = Except.ok p →
        download env videoArgs link
          = (Except.ok (DlReturn.pathDirect p true), ⟨0, 0, 1⟩))
      ∧ (env.is_on_off 1 = false → env.subproc (subprocArgs link) = Except.ok u →
          u ≠ "" →
          download env videoArgs link
            = (Except.ok (DlReturn.pathDirect (firstLine u) false), ⟨0, 1, 0⟩))
      ∧ (env.is_on_off 1 = false → env.subproc (subprocArgs link) = Except.ok "" →
          env.extract link video_dl_opts = Except.ok p →
          download env videoArgs link
            = (Except.ok (DlReturn.pathDirect p true), ⟨0, 1, 1⟩)) := by
  intro env link p u
  refine ⟨fun h1 h2 => ?_, fun h1 h2 h3 => ?_, fun h1 h2 h3 => ?_⟩
  all_goals simp [download, videoArgs, dlLink, video_dl, Except.map, h1, h2, *]

/-- Claim C2, witness: the three branches of the amended theorem at concrete
environments. -/
theorem c2_witness :
    download c2_env_on videoArgs "https://youtu.be/a"
      = (Except.ok (DlReturn.pathDirect "downloads/dQw4w9WgXcQ.mp4" true), ⟨0, 0, 1⟩)
    ∧ download c2_env videoArgs "https://youtu.be/b"
      = (Except.ok (DlReturn.pathDirect "https://cdn.example/v.mp4" false), ⟨0, 1, 0⟩)
    ∧ download c2_env_empty videoArgs "https://youtu.be/c"
      = (Except.ok (DlReturn.pathDirect "downloads/dQw4w9WgXcQ.mp4" true), ⟨0, 1, 1⟩) :=
  ⟨(c2_video_mode_behaviour c2_env_on "https://youtu.be/a"
      "downloads/dQw4w9WgXcQ.mp4" "x").1 rfl rfl,
   (c2_video_mode_behaviour c2_env "https://youtu.be/b" ""
      "https://cdn.example/v.mp4\nhttps://cdn.example/a.m4a").2.1 rfl rfl (by decide),
   (c2_video_mode_behaviour c2_env_empty "https://youtu.be/c"
      "downloads/dQw4w9WgXcQ.mp4" "").2.2 rfl rfl rfl⟩

/-- Claim C3, counterexample: `download` contains no `try`/`except`, so a
raising extraction backend makes the audio branch propagate the exception to
the caller instead of producing a `succeeded = false` result. -/
theorem c3_counterexample :
    (download c3_env audioArgs "https://youtu.be/x").1
      = Except.error "DownloadError" := rfl

/-- Claim C3, amended: any error raised during extraction, download, or the
direct-URL subprocess inside `download` propagates uncaught to the caller, on
every branch; there is no `succeeded` flag in the returned value. -/
theorem c3_download_errors_propagate :
    ∀ (env : DlEnv) (link e format_id title : String),
      (env.extract link audio_dl_opts = Except.error e →
        (download env audioArgs link).1 = Except.error e)
      ∧ (env.is_on_off 1 = true → env.extract link video_dl_opts = Except.error e →
          (download env videoArgs link).1 = Except.error e)
      ∧ (env.is_on_off 1 = false → env.subproc (subprocArgs link) = Except.error e →
          (download env videoArgs link).1 = Except.error e)
      ∧ (env.extract link (song_video_opts format_id title) = Except.error e →
          (download env ⟨false, false, true, false, format_id, title⟩ link).1
            = Except.error e)
      ∧ (env.extract link (song_audio_opts format_id title) = Except.error e →
          (download env ⟨false, true, false, false, format_id, title⟩ link).1
            = Except.error e) := by
  intro env link e format_id title
  refine ⟨fun h => ?_, fun h1 h2 => ?_, fun h1 h2 => ?_, fun h => ?_, fun h => ?_⟩
  all_goals
    simp [download, audioArgs, videoArgs, dlLink, audio_dl, video_dl,
      song_video_dl, song_audio_dl, Except.map, *]

/-- Claim C3, witness: the amended theorem at concrete raising environments
(audio extraction, local video download, and the subprocess). -/
theorem c3_witness :
    (download c3_env audioArgs "https://youtu.be/w").1 = Except.error "DownloadError"
    ∧ (download c3_env videoArgs "https://youtu.be/w").1 = Except.error "DownloadError"
    ∧ (download c3_env_sub videoArgs "https://youtu.be/w").1 = Except.error "OSError" :=
  ⟨(c3_download_errors_propagate c3_env "https://youtu.be/w" "DownloadError" "" "").1 rfl,
   (c3_download_errors_propagate c3_env "https://youtu.be/w" "DownloadError" "" "").2.1 rfl rfl,
   (c3_download_errors_propagate c3_env_sub "https://youtu.be/w" "OSError" "" "").2.2.1 rfl rfl⟩

/-- Claim C4, counterexample: a run of `details` that reaches the extraction
backend (one primary call) with zero pacer acquisitions — `Youtube.py`
contains no request pacer at all, so backend calls are never preceded by an
`acquireSlot`. -/
theorem c4_counterexample :
    (details c4_env "dQw4w9WgXcQ" true).2.primaryCalls = 1
      ∧ (details c4_env "dQw4w9WgXcQ" true).2.pacerCalls = 0 := ⟨rfl, rfl⟩

/-- Claim C4, amended: the code contains no request pacer; every metadata
resolution performs exactly one primary backend call with zero pacer
acquisitions, and every `download` run likewise acquires no pacer slot. -/
theorem c4_no_pacer_anywhere :
    (∀ (env : DetailsEnv) (link : String) (videoid : Bool),
        (details env link videoid).2.pacerCalls = 0
          ∧ (details env link videoid).2.primaryCalls = 1)
    ∧ (∀ (env : DlEnv) (args : DlArgs) (link : String),
        (download env args link).2.pacerCalls = 0) :=
  ⟨fun env link videoid => details_trace env link videoid,
   fun env args link => download_pacer env args link⟩

/-- Claim C5, counterexample: with a primary backend that raises on every
attempt, `details` performs exactly one primary attempt (not 3) before
falling back to the secondary search exactly once. -/
theorem c5_counterexample :
    (details c5_env "npr tiny desk" false).2.primaryCalls = 1
      ∧ (details c5_env "npr tiny desk" false).2.searchCalls = 1
      ∧ ¬ (details c5_env "npr tiny desk" false).2.primaryCalls = 3 :=
  ⟨rfl, rfl, by decide⟩

/-- Claim C5, amended: for every reference on which the primary extraction
backend raises, the metadata resolver makes exactly one attempt against the
primary backend — there is no retry loop and no backoff sleep — and then
invokes the secondary search fallback exactly once. -/
theorem c5_single_attempt_then_fallback (env : DetailsEnv) (link : String)
    (videoid : Bool) (e : String)
    (h : env.primary (normLink link videoid) detailsOpts = Except.error e) :
    (details env link videoid).2 = ⟨0, 1, 1⟩ := by
  simp [details, detailsTry, h]

/-- Claim C5, witness: the amended theorem at a concrete failing primary
backend. -/
theorem c5_witness :
    (details c5_env "lofi hip hop radio" false).2 = ⟨0, 1, 1⟩ :=
  c5_single_attempt_then_fallback c5_env "lofi hip hop radio" false
    "DownloadError" rfl

/-- Claim C6, counterexample: a message with no entities whose replied-to
message carries a rich-link (`TEXT_LINK`) entity in its `entities` list.  The
`elif` at `Youtube.py:44` only inspects `caption_entities` (and only when
`entities` is falsy), so `url` returns `None` instead of the embedded URL. -/
theorem c6_counterexample : urlImpl c6_msg = Except.ok none := rfl

/-- Claim C6, amended: the embedded URL of a replied-to message's rich-link
entity is returned only when that message's `entities` list is empty and the
rich link sits among its `caption_entities`; and the reply chain is followed
exactly one level — the resolver's answer never changes when replies nested
below the first level are removed. -/
theorem c6_reply_rich_link :
    (∀ (m1 r : Msg) (u : String),
      (Msg.view m1).entities = [] → (Msg.view m1).caption_entities = [] →
      m1.reply_to_message = some r →
      (Msg.view r).entities = [] →
      findTextLinkUrl (Msg.view r).caption_entities = some u →
      urlImpl m1 = Except.ok (some u))
    ∧ (∀ m : Msg, urlImpl m.truncateReplies = urlImpl m) := by
  constructor
  · intro m1 r u h1 h2 h3 h4 h5
    cases m1 with
    | mk t c es ces rep =>
      cases r with
      | mk rt rc res rces rrep =>
        simp only [Msg.view] at h1 h2 h4 h5
        simp only [Msg.reply_to_message] at h3
        subst h1; subst h2; subst h4; subst h3
        simp [urlImpl, Msg.view, Msg.reply_to_message, scanMsgs, pyTruthy,
          findTextLinkUrl, h5]
  · intro m
    cases m with
    | mk t c es ces rep =>
      cases rep with
      | none => rfl
      | some r => cases r with | mk a b d e f => rfl

/-- Claim C6, witness: the amended theorem at a concrete caption-borne rich
link and at the concrete two-level reply chain. -/
theorem c6_witness :
    urlImpl c6_caption_msg = Except.ok (some "https://youtu.be/dQw4w9WgXcQ")
    ∧ urlImpl (Msg.truncateReplies c6_msg) = urlImpl c6_msg :=
  ⟨c6_reply_rich_link.1 c6_caption_msg c6_caption_reply
      "https://youtu.be/dQw4w9WgXcQ" rfl rfl rfl rfl rfl,
   c6_reply_rich_link.2 c6_msg⟩

/-- Claim C7, counterexample: the audio-only format selector
`"bestaudio/best"` does not select only audio streams — its fallback
alternative `"best"` is not an audio-only selector (it picks the best combined
video+audio stream). -/
theorem c7_counterexample :
    ¬ SelectsOnlyAudio audio_dl_opts.format
      ∧ "best" ∈ splitAlternatives audio_dl_opts.format
      ∧ isAudioOnlyAlt "best" = false := by
  refine ⟨?_, by decide, by decide⟩
  unfold SelectsOnlyAudio
  decide

/-- Claim C7, amended: the audio acquisition format selector is
`"bestaudio/best"`: its first alternative requests only audio streams, but
the selector carries the fallback alternative `"best"`, which selects a
combined video+audio stream when no audio-only stream is available. -/
theorem c7_audio_format_alternatives :
    splitAlternatives audio_dl_opts.format = ["bestaudio", "best"]
      ∧ isAudioOnlyAlt "bestaudio" = true
      ∧ isAudioOnlyAlt "best" = false := by decide

/-- Claim C9: `playlist` returns at most `limit` video ids whenever the
backend honours the `playlistend` bound it is passed; it requests a flat
enumeration (`extract_flat` with `playlistend = limit`) without item-level
metadata; and on any backend failure it returns the empty list rather than
raising. -/
theorem c9_playlist_bounded_flat_safe :
    (∀ (backend : String → PlaylistOpts → Except String PlaylistInfo)
        (link : String) (limit user_id : Nat) (videoid : Bool),
      (∀ info, backend (plLink link videoid) (playlistOpts limit) = Except.ok info →
        (info.entries.getD []).length ≤ limit) →
      (playlistImpl backend link limit user_id videoid).length ≤ limit)
    ∧ (∀ (backend : String → PlaylistOpts → Except String PlaylistInfo)
        (link : String) (limit user_id : Nat) (videoid : Bool) (e : String),
      backend (plLink link videoid) (playlistOpts limit) = Except.error e →
      playlistImpl backend link limit user_id videoid = [])
    ∧ (∀ limit : Nat,
        (playlistOpts limit).extract_flat = true
          ∧ (playlistOpts limit).playlistend = limit) := by
  refine ⟨?_, ?_, fun limit => ⟨rfl, rfl⟩⟩
  · intro backend link limit user_id videoid h
    unfold playlistImpl
    cases hb : backend (plLink link videoid) (playlistOpts limit) with
    | error e => simp
    | ok info =>
      have hlen := h info hb
      cases hent : info.entries with
      | none => simp [hent]
      | some es =>
        rw [hent] at hlen
        simp only [hent]
        simpa using hlen
  · intro backend link limit user_id videoid e hb
    unfold playlistImpl
    rw [hb]

/-- Claim C9, witness: the bounded-length and failure branches at concrete
backends. -/
theorem c9_witness :
    (playlistImpl (fun _ _ => Except.ok ⟨some [⟨"dQw4w9WgXcQ"⟩]⟩)
        "https://youtube.com/playlist?list=PL1" 1 7 false).length ≤ 1
    ∧ playlistImpl (fun _ _ => Except.error "DownloadError")
        "https://youtube.com/playlist?list=PL1" 10 7 false = [] :=
  ⟨c9_playlist_bounded_flat_safe.1 (fun _ _ => Except.ok ⟨some [⟨"dQw4w9WgXcQ"⟩]⟩)
      "https://youtube.com/playlist?list=PL1" 1 7 false
      (fun info h => by cases h; decide),
   c9_playlist_bounded_flat_safe.2.1 (fun _ _ => Except.error "DownloadError")
      "https://youtube.com/playlist?list=PL1" 10 7 false "DownloadError" rfl⟩

/-- Claim C10: for every string `v`, `exists(v, videoid=truthy)` returns
`True`: the video-id branch prepends the watch base URL, which already
contains `youtube.com`, so the host pattern always matches. -/
theorem c10_exists_videoid_always_true : ∀ v : String, existsImpl v true = true := by
  intro v
  unfold existsImpl regexSearchYt
  simp only [if_true]
  have h1 : containsSub watchBase.data "youtube.com".data = true := by decide
  have h2 := containsSub_append watchBase.data v.data "youtube.com".data h1
  rw [data_append_eq, h2, Bool.true_or]

/-- Claim C4, witness: the amended theorem at concrete environments. -/
theorem c4_witness :
    (details c4_env "w" false).2.pacerCalls = 0
      ∧ (download c3_env audioArgs "w").2.pacerCalls = 0 :=
  ⟨(c4_no_pacer_anywhere.1 c4_env "w" false).1,
   c4_no_pacer_anywhere.2 c3_env audioArgs "w"⟩

/-- Claim C7, witness: the fallback alternative extracted from the amended
theorem. -/
theorem c7_witness : isAudioOnlyAlt "best" = false :=
  c7_audio_format_alternatives.2.2

/-- Claim C10, witness: the theorem at a concrete non-id string. -/
theorem c10_witness : existsImpl "definitely not a video id" true = true :=
  c10_exists_videoid_always_true "definitely not a video id"
